import Mathlib

/-!
Verification of the MockStream packet-interception test harness
(crates/interceptor/src/mock/mock_stream.rs) against its natural-language
specification.

Modelling conventions.  The wire codec for RTP and RTCP packets is an external
collaborator of this core (spec, "out of scope"), so a packet is modelled by
the outcome of its marshal operation: either the marshaled byte sequence or an
error cause (a numeric code standing for the opaque error value).  Machine
bytes are Nat, byte buffers and queues are lists (queue front = oldest
element).  A tokio mpsc channel is modelled by its buffered contents (a list)
together with a Boolean saying whether the sender half is still alive;
receiving on an empty channel whose sender is gone is the clean end-of-stream
None, receiving on an empty channel with a live sender suspends (`pending`).
The asynchronous pump tasks are modelled by a fold over the finite trace of
read events the bound reader produces.
-/

namespace MockStreamModel

/-- Per-call side-channel metadata bag (the crate's Attributes type).  Its
internals are irrelevant here; key/value pairs of numbers suffice. -/
abbrev Attributes : Type := List (Nat × Nat)

/-- Attributes::new — the empty bag. -/
def Attributes.new : Attributes := []

/-- Attributes::clone — attributes are cheap to clone; the model clone is the
identity on the value. -/
def Attributes.clone (a : Attributes) : Attributes := a

/-- Error values that mock_stream.rs produces: Error::ErrIoEOF,
Error::ErrShortBuffer, the two Error::new string errors of write_rtp and
write_rtcp, and generic wrapped causes (marshal failures propagated by `?`). -/
inductive MockError where
  | ioEOF
  | shortBuffer
  | invalidRtpWriter
  | invalidRtcpWriter
  | other (cause : Nat)
  deriving DecidableEq, Repr

/-- Decidable equality for marshal outcomes. -/
instance exceptDecEq {ε α : Type} [DecidableEq ε] [DecidableEq α] :
    DecidableEq (Except ε α) := fun a b =>
  match a, b with
  | Except.error e, Except.error e' =>
    if h : e = e' then Decidable.isTrue (by rw [h])
    else Decidable.isFalse (fun hc => by cases hc; exact h rfl)
  | Except.error _, Except.ok _ => Decidable.isFalse (fun hc => by cases hc)
  | Except.ok _, Except.error _ => Decidable.isFalse (fun hc => by cases hc)
  | Except.ok x, Except.ok y =>
    if h : x = y then Decidable.isTrue (by rw [h])
    else Decidable.isFalse (fun hc => by cases hc; exact h rfl)

/-- An RTP packet (rtp::packet::Packet), modelled by its marshal outcome. -/
structure RtpPacket where
  marshal : Except Nat (List Nat)
  deriving DecidableEq, Repr

/-- rtp packet clone — deep value copy, the identity on the model value. -/
def RtpPacket.clone (p : RtpPacket) : RtpPacket := p

/-- An RTCP packet (Box of dyn rtcp::packet::Packet), modelled by its marshal
outcome. -/
structure RtcpPacket where
  marshal : Except Nat (List Nat)
  deriving DecidableEq, Repr

/-- The rtcp deep-clone operation `cloned` — the identity on the model value. -/
def RtcpPacket.cloned (p : RtcpPacket) : RtcpPacket := p

/-- Outcome of one call to a reader's read: the call may suspend awaiting
channel data (`pending`), fail with an error, or succeed returning the byte
count and the (cloned) attributes. -/
inductive ReadResult where
  | pending
  | error (e : MockError)
  | ok (n : Nat) (a : Attributes)
  deriving DecidableEq, Repr

/-- Shared body of `impl RTPReader for MockStream` and `impl RTCPReader for
MockStream` (the two blocks are textually identical up to the packet type):
receive one packet from the inbound queue (None when the queue is empty and
its sender is gone, mapped to ErrIoEOF by ok_or; suspend when empty but the
sender is alive), marshal it, return ErrShortBuffer when the marshaled length
exceeds the buffer, otherwise copy the marshaled bytes over the front of the
buffer and return the length together with a clone of the caller's
attributes.  Returns the read outcome, the buffer contents after the call, and
the remaining queue. -/
def mockRead {π : Type} (marshal : π → Except Nat (List Nat))
    (q : List π) (txOpen : Bool) (buf : List Nat) (a : Attributes) :
    ReadResult × List Nat × List π :=
  match q with
  | [] =>
    if txOpen then (ReadResult.pending, buf, [])
    else (ReadResult.error MockError.ioEOF, buf, [])
  | pkt :: rest =>
    match marshal pkt with
    | Except.error c => (ReadResult.error (MockError.other c), buf, rest)
    | Except.ok m =>
      if m.length > buf.length then (ReadResult.error MockError.shortBuffer, buf, rest)
      else (ReadResult.ok m.length a.clone, m ++ buf.drop m.length, rest)

/-- impl RTPReader for MockStream — read from the rtp inbound queue. -/
def rtpReaderRead :
    List RtpPacket → Bool → List Nat → Attributes → ReadResult × List Nat × List RtpPacket :=
  mockRead RtpPacket.marshal

/-- impl RTCPReader for MockStream — read from the rtcp inbound queue. -/
def rtcpReaderRead :
    List RtcpPacket → Bool → List Nat → Attributes → ReadResult × List Nat × List RtcpPacket :=
  mockRead RtcpPacket.marshal

/-- impl RTPWriter for MockStream: send a clone of the packet on the
rtp_out_modified channel, discarding the send's own result (`let _ =`), and
return Ok(0).  `rxOpen` is the state of the channel's receiver half: the send
enqueues only while the receiver is alive.  Returns the queue after the call
and the call's result. -/
def harnessRtpWrite (outQ : List RtpPacket) (rxOpen : Bool) (pkt : RtpPacket) :
    List RtpPacket × Except MockError Nat :=
  ((if rxOpen then outQ ++ [pkt.clone] else outQ), Except.ok 0)

/-- impl RTCPWriter for MockStream: send pkt.cloned() on the rtcp_out_modified
channel, discarding the send's own result, and return Ok(0). -/
def harnessRtcpWrite (outQ : List RtcpPacket) (rxOpen : Bool) (pkt : RtcpPacket) :
    List RtcpPacket × Except MockError Nat :=
  ((if rxOpen then outQ ++ [pkt.cloned] else outQ), Except.ok 0)

/-- The state of one MockStream that the claims touch: the two bound writer
slots (the bound writer is the interceptor chain's writer, abstracted as a
function), the sender halves of the two inbound injection channels (Some/None,
as in the struct), the buffered contents of the two inbound queues, the two
outbound observation queues, and a counter of how many times the wrapped
interceptor's close has been entered. -/
structure MockStream where
  rtpWriter : Option (RtpPacket → Attributes → Except MockError Nat)
  rtcpWriter : Option (RtcpPacket → Attributes → Except MockError Nat)
  rtpInTx : Bool
  rtcpInTx : Bool
  rtpInQueue : List RtpPacket
  rtcpInQueue : List RtcpPacket
  rtpOutModified : List RtpPacket
  rtcpOutModified : List RtcpPacket
  interceptorCloseCount : Nat

/-- MockStream::write_rtp — delegate to the bound rtp writer with fresh
attributes; when the slot is None return Error::new("invalid rtp_writer"). -/
def MockStream.write_rtp (s : MockStream) (pkt : RtpPacket) : Except MockError Nat :=
  match s.rtpWriter with
  | some w => w pkt Attributes.new
  | none => Except.error MockError.invalidRtpWriter

/-- MockStream::write_rtcp — delegate to the bound rtcp writer with fresh
attributes; when the slot is None return Error::new("invalid rtcp_writer"). -/
def MockStream.write_rtcp (s : MockStream) (pkt : RtcpPacket) : Except MockError Nat :=
  match s.rtcpWriter with
  | some w => w pkt Attributes.new
  | none => Except.error MockError.invalidRtcpWriter

/-- MockStream::receive_rtp — when the sender half is still present, try_send
the packet on the capacity-1000 inbound channel: append when there is room,
silently drop the packet when the channel is full; when the sender half has
been taken (after close) do nothing.  The result of try_send is discarded, so
the caller never observes an error. -/
def MockStream.receive_rtp (s : MockStream) (pkt : RtpPacket) : MockStream :=
  if s.rtpInTx then
    if s.rtpInQueue.length < 1000 then { s with rtpInQueue := s.rtpInQueue ++ [pkt] }
    else s
  else s

/-- MockStream::receive_rtcp — same as receive_rtp on the rtcp channel. -/
def MockStream.receive_rtcp (s : MockStream) (pkt : RtcpPacket) : MockStream :=
  if s.rtcpInTx then
    if s.rtcpInQueue.length < 1000 then { s with rtcpInQueue := s.rtcpInQueue ++ [pkt] }
    else s
  else s

/-- MockStream::close — take both inbound sender halves (closing the injection
channels), then unconditionally call the wrapped interceptor's close; the
model records that entry by incrementing the counter. -/
def MockStream.close (s : MockStream) : MockStream :=
  { s with rtpInTx := false, rtcpInTx := false,
           interceptorCloseCount := s.interceptorCloseCount + 1 }

/-- One read event observed by a pump loop from its bound reader: a successful
read that filled the buffer with a frame (the first n bytes), the clean
ErrIoEOF, or any other read error (its cause abstracted to a code). -/
inductive PumpEvent where
  | readPkt (frame : List Nat)
  | readEOF
  | readErr (cause : Nat)
  deriving DecidableEq, Repr

/-- A tagged value on an inbound-modified queue: a decoded packet or a
terminal error (RTPWithError / RTCPWithError). -/
inductive WithError (π : Type) where
  | pkt (p : π)
  | err (cause : Nat)
  deriving DecidableEq, Repr

/-- The pump loop body of MockStream::new, one instance per packet kind, run
over the finite trace of read events its bound reader produces.  Returns the
sequence of values the loop places on the inbound-modified queue: on a read
error other than ErrIoEOF, send the error and break; on ErrIoEOF, break
without sending; on read success, unmarshal the filled slice — on unmarshal
failure send the error and break, on success send the packet and continue. -/
def pumpLoop {π : Type} (unmarshal : List Nat → Except Nat π) :
    List PumpEvent → List (WithError π)
  | [] => []
  | PumpEvent.readEOF :: _ => []
  | PumpEvent.readErr c :: _ => [WithError.err c]
  | PumpEvent.readPkt f :: rest =>
    match unmarshal f with
    | Except.error c => [WithError.err c]
    | Except.ok p => WithError.pkt p :: pumpLoop unmarshal rest

/-- True when the unmarshal of a frame succeeds. -/
def decodes {π : Type} (unmarshal : List Nat → Except Nat π) (f : List Nat) : Bool :=
  match unmarshal f with
  | Except.ok _ => true
  | Except.error _ => false

/-- True when a read event terminates the pump loop: ErrIoEOF, any other read
error, or a successful read whose frame fails to unmarshal. -/
def isTerminal {π : Type} (unmarshal : List Nat → Except Nat π) : PumpEvent → Bool
  | PumpEvent.readEOF => true
  | PumpEvent.readErr _ => true
  | PumpEvent.readPkt f => !(decodes unmarshal f)

/-- A sample RTP packet whose marshaled form is four bytes. -/
def sampleRtp : RtpPacket := { marshal := Except.ok [128, 0, 0, 0] }

/-- A sample RTCP packet whose marshaled form is four bytes. -/
def sampleRtcp : RtcpPacket := { marshal := Except.ok [129, 201, 0, 1] }

/-- An RTP packet whose marshal fails with cause 9. -/
def badRtp : RtpPacket := { marshal := Except.error 9 }

/-- An RTCP packet whose marshal fails with cause 9. -/
def badRtcp : RtcpPacket := { marshal := Except.error 9 }

/-- The state of a freshly constructed MockStream (MockStream::new with the
NoOp interceptor): both writer slots bound — with NoOp the bound writer is the
harness's own writer, which always returns Ok(0) — both inbound senders
alive, all queues empty, interceptor close not yet entered. -/
def initStream : MockStream :=
  { rtpWriter := some (fun _ _ => Except.ok 0)
    rtcpWriter := some (fun _ _ => Except.ok 0)
    rtpInTx := true
    rtcpInTx := true
    rtpInQueue := []
    rtcpInQueue := []
    rtpOutModified := []
    rtcpOutModified := []
    interceptorCloseCount := 0 }

/-- A stream whose two inbound queues are full (1000 buffered packets each). -/
def fullStream : MockStream :=
  { initStream with
    rtpInQueue := List.replicate 1000 sampleRtp
    rtcpInQueue := List.replicate 1000 sampleRtcp }

/-- A stream on which neither writer role has been bound. -/
def unboundStream : MockStream :=
  { initStream with rtpWriter := none, rtcpWriter := none }

/-- A stream with one packet queued on each inbound queue. -/
def queuedStream : MockStream :=
  { initStream with rtpInQueue := [sampleRtp], rtcpInQueue := [sampleRtcp] }

/-- A concrete unmarshal for pump witnesses: the empty frame decodes to 7,
anything else fails with cause 3. -/
def uW : List Nat → Except Nat Nat :=
  fun f => if f.isEmpty then Except.ok 7 else Except.error 3

/-- A run of decodable read-success events prepended to any trace contributes
exactly its decoded packets, in order, to the pump output. -/
theorem pumpLoop_good_append {π : Type} (u : List Nat → Except Nat π)
    (good : List (List Nat)) (evts : List PumpEvent)
    (h : ∀ f ∈ good, decodes u f = true) :
    ∃ ps : List π,
      pumpLoop u (good.map PumpEvent.readPkt ++ evts)
        = ps.map WithError.pkt ++ pumpLoop u evts
      ∧ pumpLoop u (good.map PumpEvent.readPkt) = ps.map WithError.pkt := by
  induction good with
  | nil => exact ⟨[], rfl, rfl⟩
  | cons f tl ih =>
    have hf : decodes u f = true := h f (List.mem_cons_self f tl)
    obtain ⟨p, hp⟩ : ∃ p, u f = Except.ok p := by
      cases hu : u f with
      | ok p => exact ⟨p, rfl⟩
      | error c => simp [decodes, hu] at hf
    obtain ⟨ps, h1, h2⟩ := ih (fun g hg => h g (List.mem_cons_of_mem f hg))
    refine ⟨p :: ps, ?_, ?_⟩
    · simp [pumpLoop, hp, h1]
    · simp [pumpLoop, hp, h2]

/-- One terminal event makes the pump output independent of the rest of the
trace. -/
theorem pumpLoop_terminal_cons {π : Type} (u : List Nat → Except Nat π)
    (t : PumpEvent) (rest : List PumpEvent) (ht : isTerminal u t = true) :
    pumpLoop u (t :: rest) = pumpLoop u [t] := by
  cases t with
  | readEOF => rfl
  | readErr c => rfl
  | readPkt f =>
    cases hu : u f with
    | ok p => simp [isTerminal, decodes, hu] at ht
    | error c => simp [pumpLoop, hu]

/-- C1: for every run of a pump loop (RTP or RTCP; the two loop bodies are
identical up to the packet type, both instances of pumpLoop): after a run of
successful, decodable reads, a read error other than ErrIoEOF or an unmarshal
failure places exactly one terminal error value on the inbound-modified queue
and terminates the loop; ErrIoEOF terminates the loop with nothing placed; and
whatever follows the terminal event is never processed. -/
theorem pump_terminal_once {π : Type} (u : List Nat → Except Nat π)
    (good : List (List Nat)) (t : PumpEvent) (rest : List PumpEvent)
    (hgood : ∀ f ∈ good, decodes u f = true)
    (hterm : isTerminal u t = true) :
    pumpLoop u (good.map PumpEvent.readPkt ++ t :: rest)
      = pumpLoop u (good.map PumpEvent.readPkt ++ [t])
    ∧ (∀ x ∈ pumpLoop u (good.map PumpEvent.readPkt), ∃ p, x = WithError.pkt p)
    ∧ (t = PumpEvent.readEOF →
        pumpLoop u (good.map PumpEvent.readPkt ++ t :: rest)
          = pumpLoop u (good.map PumpEvent.readPkt))
    ∧ (t ≠ PumpEvent.readEOF →
        ∃ c, pumpLoop u (good.map PumpEvent.readPkt ++ t :: rest)
          = pumpLoop u (good.map PumpEvent.readPkt) ++ [WithError.err c]) := by
  obtain ⟨ps, h1, h2⟩ := pumpLoop_good_append u good (t :: rest) hgood
  obtain ⟨ps', h1', h2'⟩ := pumpLoop_good_append u good [t] hgood
  have hcol : pumpLoop u (t :: rest) = pumpLoop u [t] :=
    pumpLoop_terminal_cons u t rest hterm
  refine ⟨?_, ?_, ?_, ?_⟩
  · rw [h1, h1', hcol, ← h2, ← h2']
  · intro x hx
    rw [h2] at hx
    obtain ⟨p, _, hpx⟩ := List.mem_map.mp hx
    exact ⟨p, hpx.symm⟩
  · intro heq
    subst heq
    rw [h1, ← h2]
    simp [pumpLoop]
  · intro hne
    cases t with
    | readEOF => exact absurd rfl hne
    | readErr c =>
      refine ⟨c, ?_⟩
      rw [h1, ← h2]
      simp [pumpLoop]
    | readPkt f =>
      obtain ⟨c, hu⟩ : ∃ c, u f = Except.error c := by
        cases hu : u f with
        | ok p => simp [isTerminal, decodes, hu] at hterm
        | error c => exact ⟨c, rfl⟩
      refine ⟨c, ?_⟩
      rw [h1, ← h2]
      simp [pumpLoop, hu]

/-- C1 witness: a concrete decodable frame followed by a read error with cause
5 and a trailing event that is never processed. -/
theorem pump_terminal_once_witness :
    (∀ f ∈ [([] : List Nat)], decodes uW f = true)
    ∧ isTerminal uW (PumpEvent.readErr 5) = true
    ∧ (pumpLoop uW ([[]].map PumpEvent.readPkt ++ PumpEvent.readErr 5 :: [PumpEvent.readEOF])
        = pumpLoop uW ([[]].map PumpEvent.readPkt ++ [PumpEvent.readErr 5])
      ∧ (∀ x ∈ pumpLoop uW ([[]].map PumpEvent.readPkt), ∃ p, x = WithError.pkt p)
      ∧ (PumpEvent.readErr 5 = PumpEvent.readEOF →
          pumpLoop uW ([[]].map PumpEvent.readPkt ++ PumpEvent.readErr 5 :: [PumpEvent.readEOF])
            = pumpLoop uW ([[]].map PumpEvent.readPkt))
      ∧ (PumpEvent.readErr 5 ≠ PumpEvent.readEOF →
          ∃ c, pumpLoop uW ([[]].map PumpEvent.readPkt ++ PumpEvent.readErr 5 :: [PumpEvent.readEOF])
            = pumpLoop uW ([[]].map PumpEvent.readPkt) ++ [WithError.err c])) :=
  ⟨by decide, by decide,
    pump_terminal_once uW [[]] (PumpEvent.readErr 5) [PumpEvent.readEOF]
      (by decide) (by decide)⟩

/-- C2: reading a queued packet whose marshaled length exceeds the
caller-supplied buffer returns ErrShortBuffer and leaves the buffer
byte-for-byte unchanged, for both the RTP and the RTCP reader. -/
theorem short_buffer_untouched (p : RtpPacket) (c : RtcpPacket)
    (q : List RtpPacket) (qc : List RtcpPacket) (tx txc : Bool)
    (buf : List Nat) (a : Attributes) (m mc : List Nat)
    (hm : p.marshal = Except.ok m) (hbig : buf.length < m.length)
    (hmc : c.marshal = Except.ok mc) (hbigc : buf.length < mc.length) :
    rtpReaderRead (p :: q) tx buf a = (ReadResult.error MockError.shortBuffer, buf, q)
    ∧ rtcpReaderRead (c :: qc) txc buf a = (ReadResult.error MockError.shortBuffer, buf, qc) := by
  constructor
  · simp [rtpReaderRead, mockRead, hm, hbig]
  · simp [rtcpReaderRead, mockRead, hmc, hbigc]

/-- C2 witness: one-byte buffer against four-byte marshaled packets. -/
theorem short_buffer_untouched_witness :
    sampleRtp.marshal = Except.ok [128, 0, 0, 0]
    ∧ ([0] : List Nat).length < 4
    ∧ sampleRtcp.marshal = Except.ok [129, 201, 0, 1]
    ∧ (rtpReaderRead [sampleRtp] true [0] [] = (ReadResult.error MockError.shortBuffer, [0], [])
      ∧ rtcpReaderRead [sampleRtcp] false [0] []
          = (ReadResult.error MockError.shortBuffer, [0], [])) :=
  ⟨rfl, by decide, rfl,
    short_buffer_untouched sampleRtp sampleRtcp [] [] true false [0] []
      [128, 0, 0, 0] [129, 201, 0, 1] rfl (by decide) rfl (by decide)⟩

/-- C6: a read returns the distinguished ErrIoEOF exactly when the inbound
queue is exhausted cleanly (empty with the sender half gone); a marshal
failure is returned as a generic error carrying its cause — for both the RTP
and the RTCP reader. -/
theorem eof_distinguished :
    (∀ (q : List RtpPacket) (tx : Bool) (buf : List Nat) (a : Attributes),
      (rtpReaderRead q tx buf a).1 = ReadResult.error MockError.ioEOF ↔ q = [] ∧ tx = false)
    ∧ (∀ (q : List RtcpPacket) (tx : Bool) (buf : List Nat) (a : Attributes),
      (rtcpReaderRead q tx buf a).1 = ReadResult.error MockError.ioEOF ↔ q = [] ∧ tx = false)
    ∧ (∀ (p : RtpPacket) (q : List RtpPacket) (tx : Bool) (buf : List Nat)
        (a : Attributes) (cause : Nat), p.marshal = Except.error cause →
      (rtpReaderRead (p :: q) tx buf a).1 = ReadResult.error (MockError.other cause))
    ∧ (∀ (p : RtcpPacket) (q : List RtcpPacket) (tx : Bool) (buf : List Nat)
        (a : Attributes) (cause : Nat), p.marshal = Except.error cause →
      (rtcpReaderRead (p :: q) tx buf a).1 = ReadResult.error (MockError.other cause)) := by
  refine ⟨?_, ?_, ?_, ?_⟩
  · intro q tx buf a
    cases q with
    | nil => cases tx <;> simp [rtpReaderRead, mockRead]
    | cons p rest =>
      cases hp : p.marshal with
      | error c => simp [rtpReaderRead, mockRead, hp]
      | ok m =>
        by_cases hlen : m.length > buf.length
        · simp [rtpReaderRead, mockRead, hp, hlen]
        · simp [rtpReaderRead, mockRead, hp, hlen]
  · intro q tx buf a
    cases q with
    | nil => cases tx <;> simp [rtcpReaderRead, mockRead]
    | cons p rest =>
      cases hp : p.marshal with
      | error c => simp [rtcpReaderRead, mockRead, hp]
      | ok m =>
        by_cases hlen : m.length > buf.length
        · simp [rtcpReaderRead, mockRead, hp, hlen]
        · simp [rtcpReaderRead, mockRead, hp, hlen]
  · intro p q tx buf a cause h
    simp [rtpReaderRead, mockRead, h]
  · intro p q tx buf a cause h
    simp [rtcpReaderRead, mockRead, h]

/-- C6 witness: clean exhaustion yields ErrIoEOF; a failing marshal yields the
wrapped cause. -/
theorem eof_distinguished_witness :
    (rtpReaderRead [] false [] []).1 = ReadResult.error MockError.ioEOF
    ∧ (rtcpReaderRead [] false [] []).1 = ReadResult.error MockError.ioEOF
    ∧ (rtpReaderRead [badRtp] true [] []).1 = ReadResult.error (MockError.other 9)
    ∧ (rtcpReaderRead [badRtcp] true [] []).1 = ReadResult.error (MockError.other 9) :=
  ⟨(eof_distinguished.1 [] false [] []).mpr ⟨rfl, rfl⟩,
   (eof_distinguished.2.1 [] false [] []).mpr ⟨rfl, rfl⟩,
   eof_distinguished.2.2.1 badRtp [] true [] [] 9 rfl,
   eof_distinguished.2.2.2 badRtcp [] true [] [] 9 rfl⟩

/-- C10: a successful read of byte count n overwrites exactly the first n
buffer bytes with the marshaled bytes of the dequeued packet, leaves every
byte at index n and beyond unchanged, preserves the buffer length, and returns
a clone of the caller-supplied attributes — for both readers. -/
theorem read_success_frame (p : RtpPacket) (c : RtcpPacket)
    (q : List RtpPacket) (qc : List RtcpPacket) (tx txc : Bool)
    (buf : List Nat) (a : Attributes) (m mc : List Nat)
    (hm : p.marshal = Except.ok m) (hfit : m.length ≤ buf.length)
    (hmc : c.marshal = Except.ok mc) (hfitc : mc.length ≤ buf.length) :
    rtpReaderRead (p :: q) tx buf a
      = (ReadResult.ok m.length a.clone, m ++ buf.drop m.length, q)
    ∧ rtcpReaderRead (c :: qc) txc buf a
      = (ReadResult.ok mc.length a.clone, mc ++ buf.drop mc.length, qc)
    ∧ (m ++ buf.drop m.length).take m.length = m
    ∧ (m ++ buf.drop m.length).drop m.length = buf.drop m.length
    ∧ (m ++ buf.drop m.length).length = buf.length := by
  have hnot : ¬ m.length > buf.length := Nat.not_lt.mpr hfit
  have hnotc : ¬ mc.length > buf.length := Nat.not_lt.mpr hfitc
  refine ⟨?_, ?_, ?_, ?_, ?_⟩
  · simp [rtpReaderRead, mockRead, hm, hnot]
  · simp [rtcpReaderRead, mockRead, hmc, hnotc]
  · simp [List.take_left]
  · simp [List.drop_left]
  · simp [List.length_append, List.length_drop]
    omega

/-- C10 witness: four marshaled bytes into a five-byte buffer. -/
theorem read_success_frame_witness :
    sampleRtp.marshal = Except.ok [128, 0, 0, 0]
    ∧ sampleRtcp.marshal = Except.ok [129, 201, 0, 1]
    ∧ (rtpReaderRead [sampleRtp] true [0, 0, 0, 0, 7] []
        = (ReadResult.ok 4 (Attributes.clone []), [128, 0, 0, 0, 7], [])
      ∧ rtcpReaderRead [sampleRtcp] false [0, 0, 0, 0, 7] []
        = (ReadResult.ok 4 (Attributes.clone []), [129, 201, 0, 1, 7], [])
      ∧ ([128, 0, 0, 0, 7] : List Nat).take 4 = [128, 0, 0, 0]
      ∧ ([128, 0, 0, 0, 7] : List Nat).drop 4 = List.drop 4 [0, 0, 0, 0, 7]
      ∧ ([128, 0, 0, 0, 7] : List Nat).length = ([0, 0, 0, 0, 7] : List Nat).length) :=
  ⟨rfl, rfl,
    read_success_frame sampleRtp sampleRtcp [] [] true false [0, 0, 0, 0, 7] []
      [128, 0, 0, 0] [129, 201, 0, 1] rfl (by decide) rfl (by decide)⟩

/-- C5: a write through the harness's own writer implementation places exactly
one entry — a clone of the packet — on the corresponding outbound observation
queue and returns a byte count of zero; the queue grows by exactly one, so no
duplicate or phantom entry is produced. -/
theorem harness_write_single (outQ : List RtpPacket) (outQc : List RtcpPacket)
    (p : RtpPacket) (c : RtcpPacket) :
    harnessRtpWrite outQ true p = (outQ ++ [p.clone], Except.ok 0)
    ∧ (harnessRtpWrite outQ true p).1.length = outQ.length + 1
    ∧ harnessRtcpWrite outQc true c = (outQc ++ [c.cloned], Except.ok 0)
    ∧ (harnessRtcpWrite outQc true c).1.length = outQc.length + 1 := by
  refine ⟨rfl, ?_, rfl, ?_⟩ <;> simp [harnessRtpWrite, harnessRtcpWrite]

/-- C7 counterexample: with the observation-queue receiver half closed, the
send fails — nothing is enqueued — yet the harness writer still reports
success (Ok 0): the delivery error is swallowed, not surfaced. -/
theorem harness_write_swallows_error :
    harnessRtcpWrite [] false sampleRtcp = ([], Except.ok 0)
    ∧ harnessRtpWrite [] false sampleRtp = ([], Except.ok 0) := ⟨rfl, rfl⟩

/-- C7 amended: the harness writer always returns Ok(0), discarding the
outcome of the send; the packet is enqueued exactly when the observation
queue's receiver half is still open (which it always is for a constructed
MockStream, the receiver being a field of the stream itself). -/
theorem harness_write_always_ok (outQ : List RtpPacket) (outQc : List RtcpPacket)
    (rxo rxoc : Bool) (p : RtpPacket) (c : RtcpPacket) :
    (harnessRtpWrite outQ rxo p).2 = Except.ok 0
    ∧ (harnessRtpWrite outQ rxo p).1 = (if rxo then outQ ++ [p.clone] else outQ)
    ∧ (harnessRtcpWrite outQc rxoc c).2 = Except.ok 0
    ∧ (harnessRtcpWrite outQc rxoc c).1 = (if rxoc then outQc ++ [c.cloned] else outQc) :=
  ⟨rfl, rfl, rfl, rfl⟩

/-- C3 counterexample: the second close re-enters the wrapped interceptor's
close — after two calls the interceptor's close has been entered twice, not
once. -/
theorem close_twice_reenters :
    initStream.close.interceptorCloseCount = 1
    ∧ initStream.close.close.interceptorCloseCount = 2 := ⟨rfl, rfl⟩

/-- C3 amended: a second close does not panic (the operation is total), is
idempotent on the stream's own state — the sender halves stay closed and the
queues are untouched — but re-enters the wrapped interceptor's close once more
per call. -/
theorem close_second_call (s : MockStream) :
    s.close.close.rtpInTx = false
    ∧ s.close.close.rtcpInTx = false
    ∧ s.close.close.rtpInQueue = s.close.rtpInQueue
    ∧ s.close.close.rtcpInQueue = s.close.rtcpInQueue
    ∧ s.close.close.rtpOutModified = s.close.rtpOutModified
    ∧ s.close.close.rtcpOutModified = s.close.rtcpOutModified
    ∧ s.close.close.interceptorCloseCount = s.close.interceptorCloseCount + 1 :=
  ⟨rfl, rfl, rfl, rfl, rfl, rfl, rfl⟩

/-- C4: after close, injecting a packet has no effect on the stream state (it
is dropped, not queued), while packets already on an inbound queue remain
drainable by the bound reader, which reports ErrIoEOF once the queue is
emptied. -/
theorem post_close_silence_and_drain (s : MockStream) (p p' : RtpPacket)
    (c c' : RtcpPacket) (restp : List RtpPacket) (restc : List RtcpPacket)
    (buf : List Nat) (a : Attributes) (m mc : List Nat)
    (hm : p'.marshal = Except.ok m) (hfit : m.length ≤ buf.length)
    (hmc : c'.marshal = Except.ok mc) (hfitc : mc.length ≤ buf.length) :
    s.close.receive_rtp p = s.close
    ∧ s.close.receive_rtcp c = s.close
    ∧ (s.rtpInQueue = p' :: restp →
        rtpReaderRead s.close.rtpInQueue s.close.rtpInTx buf a
          = (ReadResult.ok m.length a.clone, m ++ buf.drop m.length, restp))
    ∧ (s.rtcpInQueue = c' :: restc →
        rtcpReaderRead s.close.rtcpInQueue s.close.rtcpInTx buf a
          = (ReadResult.ok mc.length a.clone, mc ++ buf.drop mc.length, restc))
    ∧ (s.rtpInQueue = [] →
        (rtpReaderRead s.close.rtpInQueue s.close.rtpInTx buf a).1
          = ReadResult.error MockError.ioEOF)
    ∧ (s.rtcpInQueue = [] →
        (rtcpReaderRead s.close.rtcpInQueue s.close.rtcpInTx buf a).1
          = ReadResult.error MockError.ioEOF) := by
  have hnot : ¬ m.length > buf.length := Nat.not_lt.mpr hfit
  have hnotc : ¬ mc.length > buf.length := Nat.not_lt.mpr hfitc
  refine ⟨?_, ?_, ?_, ?_, ?_, ?_⟩
  · simp [MockStream.close, MockStream.receive_rtp]
  · simp [MockStream.close, MockStream.receive_rtcp]
  · intro hq
    simp [MockStream.close, hq, rtpReaderRead, mockRead, hm, hnot]
  · intro hq
    simp [MockStream.close, hq, rtcpReaderRead, mockRead, hmc, hnotc]
  · intro hq
    simp [MockStream.close, hq, rtpReaderRead, mockRead]
  · intro hq
    simp [MockStream.close, hq, rtcpReaderRead, mockRead]

/-- C4 witness: a stream with one packet queued per direction, closed, then
injected into and drained. -/
theorem post_close_silence_and_drain_witness :
    sampleRtp.marshal = Except.ok [128, 0, 0, 0]
    ∧ sampleRtcp.marshal = Except.ok [129, 201, 0, 1]
    ∧ (queuedStream.close.receive_rtp sampleRtp = queuedStream.close
      ∧ queuedStream.close.receive_rtcp sampleRtcp = queuedStream.close
      ∧ (queuedStream.rtpInQueue = [sampleRtp] →
          rtpReaderRead queuedStream.close.rtpInQueue queuedStream.close.rtpInTx
              [0, 0, 0, 0] []
            = (ReadResult.ok 4 (Attributes.clone []), [128, 0, 0, 0], []))
      ∧ (queuedStream.rtcpInQueue = [sampleRtcp] →
          rtcpReaderRead queuedStream.close.rtcpInQueue queuedStream.close.rtcpInTx
              [0, 0, 0, 0] []
            = (ReadResult.ok 4 (Attributes.clone []), [129, 201, 0, 1], []))
      ∧ (queuedStream.rtpInQueue = [] →
          (rtpReaderRead queuedStream.close.rtpInQueue queuedStream.close.rtpInTx
              [0, 0, 0, 0] []).1 = ReadResult.error MockError.ioEOF)
      ∧ (queuedStream.rtcpInQueue = [] →
          (rtcpReaderRead queuedStream.close.rtcpInQueue queuedStream.close.rtcpInTx
              [0, 0, 0, 0] []).1 = ReadResult.error MockError.ioEOF)) :=
  ⟨rfl, rfl,
    post_close_silence_and_drain queuedStream sampleRtp sampleRtp sampleRtcp sampleRtcp
      [] [] [0, 0, 0, 0] [] [128, 0, 0, 0] [129, 201, 0, 1]
      rfl (by decide) rfl (by decide)⟩

/-- C8: injecting while the stream is open and the capacity-1000 inbound queue
is full silently drops the new packet: the state — in particular the queue's
existing contents — is unchanged, and the injection never reports an error
(receive returns the new state unconditionally). -/
theorem receive_full_drops (s : MockStream) (p : RtpPacket) (c : RtcpPacket)
    (hop : s.rtpInTx = true) (hfull : 1000 ≤ s.rtpInQueue.length)
    (hopc : s.rtcpInTx = true) (hfullc : 1000 ≤ s.rtcpInQueue.length) :
    s.receive_rtp p = s ∧ s.receive_rtcp c = s := by
  constructor
  · simp [MockStream.receive_rtp, hop, Nat.not_lt.mpr hfull]
  · simp [MockStream.receive_rtcp, hopc, Nat.not_lt.mpr hfullc]

/-- The full stream's rtp inbound queue holds exactly 1000 packets. -/
theorem fullStream_rtp_len : fullStream.rtpInQueue.length = 1000 := by
  rw [show fullStream.rtpInQueue = List.replicate 1000 sampleRtp from rfl,
    List.length_replicate]

/-- The full stream's rtcp inbound queue holds exactly 1000 packets. -/
theorem fullStream_rtcp_len : fullStream.rtcpInQueue.length = 1000 := by
  rw [show fullStream.rtcpInQueue = List.replicate 1000 sampleRtcp from rfl,
    List.length_replicate]

/-- C8 witness: an open stream with exactly 1000 packets buffered per inbound
queue drops further injections. -/
theorem receive_full_drops_witness :
    fullStream.rtpInTx = true
    ∧ 1000 ≤ fullStream.rtpInQueue.length
    ∧ fullStream.rtcpInTx = true
    ∧ 1000 ≤ fullStream.rtcpInQueue.length
    ∧ (fullStream.receive_rtp sampleRtp = fullStream
      ∧ fullStream.receive_rtcp sampleRtcp = fullStream) :=
  ⟨rfl, by rw [fullStream_rtp_len], rfl, by rw [fullStream_rtcp_len],
    receive_full_drops fullStream sampleRtp sampleRtcp rfl
      (by rw [fullStream_rtp_len]) rfl (by rw [fullStream_rtcp_len])⟩

/-- C9: calling write_rtp or write_rtcp while the corresponding writer slot is
still None returns the documented "invalid … writer" error — the operation is
total, so it cannot panic. -/
theorem unbound_writer_errors (s : MockStream) (p : RtpPacket) (c : RtcpPacket)
    (h : s.rtpWriter = none) (h' : s.rtcpWriter = none) :
    s.write_rtp p = Except.error MockError.invalidRtpWriter
    ∧ s.write_rtcp c = Except.error MockError.invalidRtcpWriter := by
  constructor
  · simp [MockStream.write_rtp, h]
  · simp [MockStream.write_rtcp, h']

/-- C9 witness: a stream with both writer roles unbound. -/
theorem unbound_writer_errors_witness :
    unboundStream.rtpWriter = none
    ∧ unboundStream.rtcpWriter = none
    ∧ (unboundStream.write_rtp sampleRtp = Except.error MockError.invalidRtpWriter
      ∧ unboundStream.write_rtcp sampleRtcp = Except.error MockError.invalidRtcpWriter) :=
  ⟨rfl, rfl, unbound_writer_errors unboundStream sampleRtp sampleRtcp rfl rfl⟩

end MockStreamModel
